import Mathlib

/-!
Shallow embedding of the `lobocrea/supabase-react` client application
(`src/App.jsx`, `src/components/Login.jsx`, `src/components/Register.jsx`,
`src/components/Dashboard.jsx`) together with theorems checking the
natural-language specification against it.

External calls (`supabase.auth.*`, table inserts/selects) are modelled by
passing their outcome as an explicit argument; each React handler becomes a
pure function from its inputs and the outcomes of the external calls it
awaits to the list of effects it performs, in program order.
-/

namespace SupabaseReact

/-- An authenticated user as held by the auth service: an opaque identifier
plus an email address (the two fields the application reads). -/
structure User where
  id : String
  email : String
deriving DecidableEq, Repr

/-- A session issued by the auth service; the application only ever reads its
`user` field (`session?.user`). -/
structure Session where
  user : User
deriving DecidableEq, Repr

/-! ## Session observer (`App.jsx`)

`App` keeps `user : Option User` state (initially `null`) and registers
`(_event, session) => setUser(session?.user ?? null)` with
`supabase.auth.onAuthStateChange`. -/

/-- The body of the `onAuthStateChange` callback in `App.jsx` lines 19-21:
the new current-user value computed from the notification's session,
`session?.user ?? null`. -/
def onAuthStateChange (session : Option Session) : Option User :=
  match session with
  | some s => some s.user
  | none => none

/-- Processing a whole sequence of auth-state notifications: each callback
invocation replaces the current-user state with the value computed from that
notification alone (`setUser(session?.user ?? null)` ignores the previous
state). -/
def processNotifications (init : Option User) (notifs : List (Option Session)) :
    Option User :=
  notifs.foldl (fun _ s => onAuthStateChange s) init

/-! ## Routing (`App.jsx` lines 45-67) -/

/-- The navigable paths declared in the `Routes` element of `App.jsx`. -/
inductive Path
  | root
  | login
  | register
  | dashboard
deriving DecidableEq, Repr

/-- The three renderable views (the root path has no view of its own: its
route element is always a `Navigate`). -/
inductive View
  | loginView
  | registerView
  | dashboardView
deriving DecidableEq, Repr

/-- The view a path requests, when it has one; the root path requests none. -/
def viewOf : Path → Option View
  | .login => some .loginView
  | .register => some .registerView
  | .dashboard => some .dashboardView
  | .root => none

/-- Outcome of evaluating a route: either a view is rendered or a `Navigate`
redirect to another path is produced. -/
inductive RouteResult
  | render (v : View)
  | redirect (p : Path)
deriving DecidableEq, Repr

/-- The route elements of `App.jsx` lines 54-67 as a pure function of the
current-user state and the requested path:
`/login`: `user ? <Navigate to="/dashboard"> : <Login/>`;
`/register`: `user ? <Navigate to="/dashboard"> : <Register/>`;
`/dashboard`: `ProtectedRoute` returns `<Navigate to="/login">` when `!user`,
else the `Dashboard`;
`/`: `<Navigate to={user ? "/dashboard" : "/login"}>`. -/
def route (user : Option User) : Path → RouteResult
  | .login =>
      if user.isSome then .redirect .dashboard else .render .loginView
  | .register =>
      if user.isSome then .redirect .dashboard else .render .registerView
  | .dashboard =>
      if user.isSome then .render .dashboardView else .redirect .login
  | .root =>
      .redirect (if user.isSome then .dashboard else .login)

/-- The routing rule exactly as the specification states it: absent user on
`/dashboard` redirects to `/login`; present user on `/login` or `/register`
redirects to `/dashboard`; in ALL other cases the requested view is
rendered. (Stated for comparison with `route`; the last clause fails on the
root path.) -/
def routingClaim : Prop :=
  ∀ (user : Option User) (p : Path),
    (user = none ∧ p = .dashboard → route user p = .redirect .login) ∧
    (user.isSome ∧ (p = .login ∨ p = .register) →
      route user p = .redirect .dashboard) ∧
    (¬(user = none ∧ p = .dashboard) →
      ¬(user.isSome ∧ (p = .login ∨ p = .register)) →
      ∃ v, viewOf p = some v ∧ route user p = .render v)

/-! ## Registration form (`Register.jsx`) -/

/-- The registration form state initialised in `Register.jsx` lines 11-16. -/
structure RegisterForm where
  displayName : String
  email : String
  password : String
  phone : String
deriving DecidableEq, Repr

/-- The four field names occurring on the form's inputs (`name="displayName"`
etc.); `handleChange` is only ever invoked with one of these. -/
inductive Field
  | displayName
  | email
  | password
  | phone
deriving DecidableEq, Repr

/-- Read one field of the form state by name. -/
def RegisterForm.get (f : RegisterForm) : Field → String
  | .displayName => f.displayName
  | .email => f.email
  | .password => f.password
  | .phone => f.phone

/-- `handleChange` (`Register.jsx` lines 20-26): spread the previous form
state and overwrite the field named by the event, `{ ...prev, [name]: value }`. -/
def handleChange (prev : RegisterForm) (name : Field) (value : String) :
    RegisterForm :=
  match name with
  | .displayName => { prev with displayName := value }
  | .email => { prev with email := value }
  | .password => { prev with password := value }
  | .phone => { prev with phone := value }

/-- A row of the external `profiles` table as the application writes it. -/
structure ProfileRow where
  id : String
  display_name : String
  email : String
  phone : String
deriving DecidableEq, Repr

/-- Effects a handler can perform, in the order the source performs them.
`setUser` is the `App`-level current-user state write; `selectProfiles` is
the external interface's table-select on `profiles` filtered by id (listed
so that claims about profile reads can be stated — the source named below
says which handlers actually emit which effects). -/
inductive Effect
  | setLoading (b : Bool)
  | setError (msg : Option String)
  | signUpCall (email password displayName phone : String)
  | insertProfile (row : ProfileRow)
  | navigate (path : String) (message : Option String)
  | signInCall (email password : String)
  | toastShow (severity summary detail : String) (life : Nat)
  | signOutCall
  | consoleError (msg : String)
  | setUser (u : Option User)
  | getUserCall
  | setDashUser (u : Option User)
  | selectProfiles (filterId : String)
deriving DecidableEq, Repr

/-- The success message passed to `navigate` in `Register.jsx` lines 63-67. -/
def registerSuccessMessage : String :=
  "Registro exitoso. Por favor, verifica tu correo electrónico para activar tu cuenta."

/-- `handleSubmit` of `Register.jsx` lines 28-73 as a trace of effects.
`signUpResult` is the outcome of `supabase.auth.signUp` (an error message or
the created user), `insertResult` the outcome of the `profiles` insert.
Program order: `setLoading(true)`, `setError(null)`, the sign-up call; on
sign-up error, throw into the catch (`setError(err.message)`); otherwise the
profile insert with `id: user.id` and the form fields; on insert error the
same catch; otherwise `navigate('/login', { state: { message } })`; in every
case the `finally` block runs `setLoading(false)`. -/
def handleSubmitRegister (form : RegisterForm)
    (signUpResult : Except String User)
    (insertResult : Except String Unit) : List Effect :=
  [Effect.setLoading true, Effect.setError none,
   Effect.signUpCall form.email form.password form.displayName form.phone] ++
  (match signUpResult with
   | .error e => [Effect.setError (some e)]
   | .ok user =>
      Effect.insertProfile ⟨user.id, form.displayName, form.email, form.phone⟩ ::
      match insertResult with
      | .error e => [Effect.setError (some e)]
      | .ok _ => [Effect.navigate "/login" (some registerSuccessMessage)]) ++
  [Effect.setLoading false]

/-! ## Login form (`Login.jsx`, second part of `Dashboard.jsx` source file) -/

/-- `handleSubmit` of the `Login` component as a trace of effects.
`signInResult` is the outcome of `supabase.auth.signInWithPassword`.
Program order: `setLoading(true)`, the sign-in call; on error, throw into
the catch which shows a toast `{ severity: 'error', summary: 'Error',
detail: error.message, life: 3000 }`; on success nothing further happens
(no navigation, no state write); `finally` runs `setLoading(false)`. -/
def handleSubmitLogin (email password : String)
    (signInResult : Except String Unit) : List Effect :=
  [Effect.setLoading true, Effect.signInCall email password] ++
  (match signInResult with
   | .error e => [Effect.toastShow "error" "Error" e 3000]
   | .ok _ => []) ++
  [Effect.setLoading false]

/-! ## Dashboard (`Dashboard.jsx` lines 5-50) -/

/-- The mount effect of `Dashboard` (lines 8-14): `getUser` awaits
`supabase.auth.getUser()` and stores the returned user in the component's
own `user` state. That is the whole effect — no table query follows. -/
def dashboardMount (authResult : Option User) : List Effect :=
  [Effect.getUserCall, Effect.setDashUser authResult]

/-- `handleLogout` of `Dashboard` (lines 16-22): await `signOut`; a rejection
is caught and only logged to the console. -/
def dashboardLogout (signOutResult : Except String Unit) : List Effect :=
  Effect.signOutCall ::
  match signOutResult with
  | .error e => [Effect.consoleError e]
  | .ok _ => []

/-- The claim that the Dashboard, rendered with an authenticated current
user, fetches the profile row whose identifier equals that user's identifier
from the `profiles` table. (Stated for comparison with `dashboardMount`.) -/
def dashboardFetchesProfileClaim : Prop :=
  ∀ u : User, Effect.selectProfiles u.id ∈ dashboardMount (some u)

/-! ## App initialization (`App.jsx` lines 8-24) -/

/-- The initial current-user state: `useState(null)`. -/
def appInitialUser : Option User := none

/-- The effect of the initial `getSession()` promise on the current-user
state (`App.jsx` lines 14-16). On fulfilment the `then` callback runs
`setUser(session?.user ?? null)`; the chain has no rejection handler, so on
failure no write happens and the state is left as it was. -/
def applyGetSession (st : Option User)
    (result : Except String (Option Session)) : Option User :=
  match result with
  | .error _ => st
  | .ok s => onAuthStateChange s

/-- `handleLogin` (`App.jsx` lines 37-39) writes current-user state; it is
passed to `Login` as the `onLogin` prop, but the `Login` component declares
no props and never invokes it. -/
def handleLogin (username : User) : List Effect :=
  [Effect.setUser (some username)]

/-- `handleLogout` (`App.jsx` lines 41-43) writes current-user state; it is
passed to `Dashboard` as the `onLogout` prop, but the `Dashboard` component
declares no props and never invokes it. -/
def handleLogout : List Effect :=
  [Effect.setUser none]

/-- The `onAuthStateChange` subscription callback as a trace: its sole
effect is the current-user write `setUser(session?.user ?? null)`. -/
def authCallbackEffects (session : Option Session) : List Effect :=
  [Effect.setUser (onAuthStateChange session)]

/-- The effects of every handler reachable from the rendered views, for one
choice of inputs and external outcomes each: the Login submit, the Register
submit and the Dashboard sign-out. (`App.handleLogin` and `App.handleLogout`
are not reachable: the children ignore the props carrying them.) -/
def reachableHandlerEffects (email password : String)
    (signInResult : Except String Unit) (form : RegisterForm)
    (signUpResult : Except String User) (insertResult : Except String Unit)
    (signOutResult : Except String Unit) : List Effect :=
  handleSubmitLogin email password signInResult ++
  handleSubmitRegister form signUpResult insertResult ++
  dashboardLogout signOutResult

/-! ## Subscription lifecycle (`App.jsx` lines 19-24)

The effect registers the callback on mount and its cleanup is
`() => subscription.unsubscribe()`, unconditionally. The subscription is
modelled with the usual semantics of an event subscription: a notification
invokes the callback (which writes current-user state) only while the
subscription is registered. -/

/-- Observer state: the mirrored current user plus whether the subscription
is still registered. -/
structure ObserverState where
  user : Option User
  subscribed : Bool
deriving DecidableEq, Repr

/-- Delivering one auth-state notification: while subscribed, the callback
runs and replaces the current-user state; after unsubscription the callback
is no longer invoked and the state is untouched. -/
def notifyObserver (st : ObserverState) (s : Option Session) : ObserverState :=
  if st.subscribed then { st with user := onAuthStateChange s } else st

/-- The effect cleanup of `App.jsx` line 23: unconditionally unsubscribe. -/
def cleanupObserver (st : ObserverState) : ObserverState :=
  { st with subscribed := false }

/-! ## Theorems -/

/-- Helper: once the subscription flag is down, delivering any sequence of
notifications leaves the observer state untouched. -/
theorem foldl_notify_unsubscribed (l : List (Option Session))
    (st : ObserverState) (h : st.subscribed = false) :
    l.foldl notifyObserver st = st := by
  induction l generalizing st with
  | nil => rfl
  | cons s t ih =>
      have hstep : notifyObserver st s = st := by
        simp [notifyObserver, h]
      simp [List.foldl, hstep, ih st h]

/-- C1: evaluated at an authenticated current user (id `"user-1"`), the
Dashboard's mount effect is only `getUser` plus storing its result — it
performs no select on the `profiles` table, contradicting the claim (and the
repository's own README §6.3, which documents
`from('profiles').select('*').eq('id', user.id).single()` with the error
surfaced). -/
theorem dashboard_no_profile_fetch : ¬ dashboardFetchesProfileClaim := by
  intro h
  have hmem := h ⟨"user-1", "a@b.com"⟩
  simp [dashboardMount] at hmem

/-- C2: last notification wins — after the observer's callback processes the
final notification of any sequence, the current-user state is exactly the
user carried by that notification (or `none` when it carries no session),
whatever the initial state and earlier notifications were. -/
theorem last_notification_wins (init : Option User)
    (notifs : List (Option Session)) (s : Option Session) :
    processNotifications init (notifs ++ [s]) = onAuthStateChange s := by
  simp [processNotifications, List.foldl_append]

/-- C2 witness: a concrete three-notification run ends in the last
notification's payload. -/
theorem last_notification_wins_witness :
    processNotifications none
      [some ⟨⟨"u1", "a@b.com"⟩⟩, none, some ⟨⟨"u2", "c@d.com"⟩⟩] =
      some ⟨"u2", "c@d.com"⟩ :=
  last_notification_wins none [some ⟨⟨"u1", "a@b.com"⟩⟩, none]
    (some ⟨⟨"u2", "c@d.com"⟩⟩)

/-- C3 counterexample: the routing rule as the claim states it is false at
the concrete input (current-user absent, path `/`): that case falls under
the claim's catch-all clause "the requested view is rendered", but the root
route always produces a redirect (here to `/login`) and has no view. -/
theorem routingClaim_false : ¬ routingClaim := by
  intro h
  obtain ⟨v, hv, _⟩ := (h none Path.root).2.2 (by simp) (by simp)
  simp [viewOf] at hv

/-- C3 amended: routing is a pure function of path and current-user
presence; absent user on `/dashboard` redirects to `/login`; present user on
`/login` or `/register` redirects to `/dashboard`; the root path always
redirects (to `/dashboard` when a user is present, `/login` otherwise); in
all remaining cases the requested view is rendered. -/
theorem route_characterization (user : Option User) :
    route user .root = .redirect (if user.isSome then .dashboard else .login) ∧
    route none .dashboard = .redirect .login ∧
    route none .login = .render .loginView ∧
    route none .register = .render .registerView ∧
    ∀ u : User,
      route (some u) .dashboard = .render .dashboardView ∧
      route (some u) .login = .redirect .dashboard ∧
      route (some u) .register = .redirect .dashboard :=
  ⟨rfl, rfl, rfl, rfl, fun _ => ⟨rfl, rfl, rfl⟩⟩

/-- C4: when sign-up and the profile insert both succeed, the registration
handler's effect trace is exactly: the sign-up call, then one profile insert
whose `id` is the created user's identifier (and whose display name, email
and phone are the submitted fields), then navigation to `/login` carrying
the success message (with the loading-flag writes around them). -/
theorem register_success_trace (form : RegisterForm) (u : User) :
    handleSubmitRegister form (.ok u) (.ok ()) =
      [Effect.setLoading true, Effect.setError none,
       Effect.signUpCall form.email form.password form.displayName form.phone,
       Effect.insertProfile ⟨u.id, form.displayName, form.email, form.phone⟩,
       Effect.navigate "/login" (some registerSuccessMessage),
       Effect.setLoading false] :=
  rfl

/-- C5: when sign-up fails, the registration handler displays the returned
error message (`setError`) and does nothing else: its trace is exactly the
sign-up call followed by the error write, with no profile insert and no
navigation, whatever outcome the (never-issued) insert would have had. -/
theorem register_signup_failure (form : RegisterForm) (e : String)
    (insertResult : Except String Unit) :
    handleSubmitRegister form (.error e) insertResult =
      [Effect.setLoading true, Effect.setError none,
       Effect.signUpCall form.email form.password form.displayName form.phone,
       Effect.setError (some e), Effect.setLoading false] ∧
    (∀ row, Effect.insertProfile row ∉
        handleSubmitRegister form (.error e) insertResult) ∧
    ∀ p m, Effect.navigate p m ∉
        handleSubmitRegister form (.error e) insertResult := by
  refine ⟨rfl, fun row => ?_, fun p m => ?_⟩ <;>
    simp [handleSubmitRegister]

/-- C5 witness: at a concrete duplicate-registration failure, no profile
insert appears in the trace. -/
theorem register_signup_failure_witness :
    Effect.insertProfile ⟨"u1", "n", "a@b.com", "t"⟩ ∉
      handleSubmitRegister ⟨"n", "a@b.com", "pw", "t"⟩
        (.error "User already registered") (.ok ()) :=
  (register_signup_failure ⟨"n", "a@b.com", "pw", "t"⟩
      "User already registered" (.ok ())).2.1 _

/-- C6: on sign-in failure the login handler shows a transient error toast
(severity `error`, life 3000 ms) and its trace contains no navigation and no
current-user write (so current-user stays absent); on success it likewise
performs no navigation at all — redirection is left entirely to the
session observer. -/
theorem login_failure_behavior (email password e : String) :
    handleSubmitLogin email password (.error e) =
      [Effect.setLoading true, Effect.signInCall email password,
       Effect.toastShow "error" "Error" e 3000, Effect.setLoading false] ∧
    handleSubmitLogin email password (.ok ()) =
      [Effect.setLoading true, Effect.signInCall email password,
       Effect.setLoading false] ∧
    (∀ r : Except String Unit, ∀ p m,
      Effect.navigate p m ∉ handleSubmitLogin email password r) ∧
    ∀ r : Except String Unit, ∀ u,
      Effect.setUser u ∉ handleSubmitLogin email password r := by
  refine ⟨rfl, rfl, fun r p m => ?_, fun r u => ?_⟩ <;>
    rcases r with e' | u' <;> simp [handleSubmitLogin]

/-- C6 witness: the spec's concrete example — login with `a@b.com` /
`wrong` failing — produces the toast trace and no navigation. -/
theorem login_failure_behavior_witness :
    handleSubmitLogin "a@b.com" "wrong" (.error "Invalid login credentials") =
      [Effect.setLoading true, Effect.signInCall "a@b.com" "wrong",
       Effect.toastShow "error" "Error" "Invalid login credentials" 3000,
       Effect.setLoading false] ∧
    Effect.navigate "/dashboard" none ∉
      handleSubmitLogin "a@b.com" "wrong" (.error "Invalid login credentials") :=
  ⟨(login_failure_behavior "a@b.com" "wrong" "Invalid login credentials").1,
   (login_failure_behavior "a@b.com" "wrong"
      "Invalid login credentials").2.2.1 _ _ _⟩

/-- C7: starting from the initial `null` state, the initial session fetch
sets current-user to the fetched session's user, to `none` when there is no
session, and — because the promise chain has no rejection handler — leaves
the state `none` (Unauthenticated) when the fetch fails. -/
theorem init_session_behavior :
    (∀ s : Session, applyGetSession appInitialUser (.ok (some s)) = some s.user) ∧
    applyGetSession appInitialUser (.ok none) = none ∧
    ∀ e : String, applyGetSession appInitialUser (.error e) = none :=
  ⟨fun _ => rfl, rfl, fun _ => rfl⟩

/-- C8: the auth-state subscription is the sole writer of current-user
state: no handler reachable from the rendered views (login submit, register
submit, dashboard sign-out) ever emits a `setUser` effect, for any inputs
and any outcomes of their external calls, while the subscription callback's
trace is exactly one `setUser`. (`App.handleLogin` / `App.handleLogout` do
write the state but are unreachable: `Login` and `Dashboard` ignore the
props carrying them.) -/
theorem subscription_sole_writer (email password : String)
    (signInResult : Except String Unit) (form : RegisterForm)
    (signUpResult : Except String User) (insertResult : Except String Unit)
    (signOutResult : Except String Unit) :
    (∀ u, Effect.setUser u ∉ reachableHandlerEffects email password
        signInResult form signUpResult insertResult signOutResult) ∧
    ∀ session, authCallbackEffects session =
        [Effect.setUser (onAuthStateChange session)] := by
  refine ⟨fun u => ?_, fun _ => rfl⟩
  rcases signInResult with e1 | u1 <;> rcases signUpResult with e2 | u2 <;>
    rcases insertResult with e3 | u3 <;> rcases signOutResult with e4 | u4 <;>
    simp [reachableHandlerEffects, handleSubmitLogin, handleSubmitRegister,
      dashboardLogout]

/-- C8 witness: at one concrete run of all three handlers, no current-user
write occurs. -/
theorem subscription_sole_writer_witness :
    Effect.setUser none ∉ reachableHandlerEffects "a@b.com" "pw" (.ok ())
      ⟨"n", "a@b.com", "pw", "t"⟩ (.ok ⟨"u1", "a@b.com"⟩) (.ok ()) (.ok ()) :=
  (subscription_sole_writer "a@b.com" "pw" (.ok ())
      ⟨"n", "a@b.com", "pw", "t"⟩ (.ok ⟨"u1", "a@b.com"⟩) (.ok ()) (.ok ())).1
    none

/-- C9: the effect cleanup unsubscribes unconditionally (the flag is down in
every post-cleanup state), and from then on no sequence of auth-state
notifications changes the observer state at all — in particular the
mirrored current-user value is exactly what it was at teardown. -/
theorem no_update_after_dispose (st : ObserverState)
    (notifs : List (Option Session)) :
    (cleanupObserver st).subscribed = false ∧
    notifs.foldl notifyObserver (cleanupObserver st) = cleanupObserver st ∧
    (notifs.foldl notifyObserver (cleanupObserver st)).user = st.user := by
  refine ⟨rfl, foldl_notify_unsubscribed notifs _ rfl, ?_⟩
  rw [foldl_notify_unsubscribed notifs _ rfl]
  rfl

/-- C10: `handleChange` writes exactly the named field and leaves the other
three untouched. -/
theorem handleChange_frame (prev : RegisterForm) (n : Field) (v : String) :
    (handleChange prev n v).get n = v ∧
    ∀ m : Field, m ≠ n → (handleChange prev n v).get m = prev.get m := by
  constructor
  · cases n <;> rfl
  · intro m hm
    cases n <;> cases m <;> first | rfl | exact absurd rfl hm

/-- C10 witness: updating the email field at a concrete form state changes
the email and preserves the phone. -/
theorem handleChange_frame_witness :
    (handleChange ⟨"a", "b", "c", "d"⟩ .email "x").get .email = "x" ∧
    (handleChange ⟨"a", "b", "c", "d"⟩ .email "x").get .phone = "d" :=
  ⟨(handleChange_frame ⟨"a", "b", "c", "d"⟩ .email "x").1,
   (handleChange_frame ⟨"a", "b", "c", "d"⟩ .email "x").2 .phone (by decide)⟩

end SupabaseReact
